import Mathlib

/-!
Shallow embedding of the lead-qualification scorer of
`src/lead_qualification_server.py` (repository `sales-toolkit`).

A contact row comes from `csv.DictReader`: a string-keyed dictionary of
string values, here an association list (keys may be absent, so
`dict.get(key, default)` becomes a lookup with a fallback).  The scorer
`score_lead` is a pure function from such a row to a `ScoredLead` record;
`round(x, 1)` is modelled exactly over `ℚ` (Python rounds halves to even,
but every value this program rounds has `10 * x` integral, so no half
point can arise and floor-based rounding agrees; for the reachable inputs
the reference float computation `round(score / max_score * 100, 1)` is
also exact).
-/

namespace LeadQual

/-- One CSV row: association list from column names to string values. -/
abbrev Contact := List (String × String)

/-- Python `contact.get(key, dflt)`. -/
def cget (c : Contact) (key dflt : String) : String :=
  (List.lookup key c).getD dflt

/-- Python `contact.get(key)` (absent key gives `None`). -/
def cgetOpt (c : Contact) (key : String) : Option String :=
  List.lookup key c

/-- The `SCORING` weight table (lines 24-31 of the source). -/
def SCORING (k : String) : ℕ :=
  if k = "company_type" then 35
  else if k = "has_auto_lending" then 35
  else if k = "company_size" then 10
  else if k = "title" then 10
  else if k = "source" then 5
  else if k = "state" then 5
  else 0

/-- The table `ICP_CONFIG["required"]` (lines 36-40 of the source). -/
structure ICPRequired where
  company_type : List String
  country : List String
  has_auto_lending : Bool

/-- The table `ICP_CONFIG["preferred"]` (lines 41-47 of the source). -/
structure ICPPreferred where
  company_size : List String
  titles : List String
  sources : List String
  states : List String

def ICP_CONFIG_required : ICPRequired :=
  { company_type := ["Credit Union"]
    country := ["United States"]
    has_auto_lending := true }

def ICP_CONFIG_preferred : ICPPreferred :=
  { company_size := ["201-1000", "1000+"]
    titles := ["CFO", "VP of Finance", "COO", "CEO",
               "Chief Lending Officer", "VP of Lending", "SVP of Lending"]
    sources := ["Referral", "Inbound Demo Request", "Conference"]
    states := [] }

/-- The record returned by `score_lead` (lines 152-170 of the source). -/
structure ScoredLead where
  contact_id : Option String
  name : Option String
  company : Option String
  company_type : String
  title : String
  email : Option String
  phone : Option String
  state : String
  source : String
  created : Option String
  score : ℕ
  score_pct : ℚ
  tier : String
  priority : String
  reasons : List String
  gaps : List String
  disqualified : Bool
deriving Repr, DecidableEq

/-- Python `round(x, 1)` over `ℚ` (see the file header for exactness). -/
def pythonRound1 (x : ℚ) : ℚ :=
  ((round (x * 10) : ℤ) : ℚ) / 10

/-- Line 85: `company_type in ICP_CONFIG["required"]["company_type"]`. -/
def company_type_hit (c : Contact) : Bool :=
  ICP_CONFIG_required.company_type.contains (cget c "Company_Type" "")

/-- Line 93: `has_auto = contact.get("Has_Auto_Lending", "No") == "Yes"`. -/
def has_auto (c : Contact) : Bool :=
  cget c "Has_Auto_Lending" "No" == "Yes"

/-- Line 103: `company_size in ICP_CONFIG["preferred"]["company_size"]`. -/
def company_size_hit (c : Contact) : Bool :=
  ICP_CONFIG_preferred.company_size.contains (cget c "Company_Size" "")

/-- Line 111: `title in ICP_CONFIG["preferred"]["titles"]`. -/
def title_hit (c : Contact) : Bool :=
  ICP_CONFIG_preferred.titles.contains (cget c "Job_Title" "")

/-- Line 119: `source in ICP_CONFIG["preferred"]["sources"]`. -/
def source_hit (c : Contact) : Bool :=
  ICP_CONFIG_preferred.sources.contains (cget c "Source" "")

/-- Line 128: `not priority_states or state in priority_states`. -/
def state_hit (c : Contact) : Bool :=
  ICP_CONFIG_preferred.states.isEmpty ||
    ICP_CONFIG_preferred.states.contains (cget c "State" "")

/-- The scorer `score_lead` (lines 74-170 of the source).  The imperative
accumulation (`score += w`, `reasons.append`, `gaps.append`,
`disqualified = True`) is rendered as the equivalent sum / ordered
concatenation over the six criterion blocks, in source order. -/
def score_lead (contact : Contact) : ScoredLead :=
  let max_score : ℕ :=
    SCORING "company_type" + SCORING "has_auto_lending" + SCORING "company_size" +
      SCORING "title" + SCORING "source" + SCORING "state"
  let company_type := cget contact "Company_Type" ""
  let company_size := cget contact "Company_Size" ""
  let title := cget contact "Job_Title" ""
  let source := cget contact "Source" ""
  let state := cget contact "State" ""
  let score : ℕ :=
    (if company_type_hit contact then SCORING "company_type" else 0) +
    (if has_auto contact then SCORING "has_auto_lending" else 0) +
    (if company_size_hit contact then SCORING "company_size" else 0) +
    (if title_hit contact then SCORING "title" else 0) +
    (if source_hit contact then SCORING "source" else 0) +
    (if state_hit contact then SCORING "state" else 0)
  let reasons : List String :=
    (if company_type_hit contact then ["✓ Perfect fit: " ++ company_type] else []) ++
    (if has_auto contact then ["✓ Has indirect auto lending"] else []) ++
    [if company_size_hit contact then "✓ Good size: " ++ company_size ++ " employees"
     else "• Size: " ++ company_size ++ " employees"] ++
    [if title_hit contact then "✓ Decision maker: " ++ title else "• Title: " ++ title] ++
    [if source_hit contact then "✓ High-intent: " ++ source else "• Source: " ++ source] ++
    (if state_hit contact then ["✓ Location: " ++ state] else [])
  let gaps : List String :=
    (if company_type_hit contact then [] else ["✗ NOT A CREDIT UNION: " ++ company_type]) ++
    (if has_auto contact then [] else ["✗ NO AUTO LENDING BUSINESS"])
  let disqualified : Bool := !company_type_hit contact || !has_auto contact
  let score_pct : ℚ :=
    if disqualified then 0
    else pythonRound1 ((score : ℚ) / (max_score : ℚ) * 100)
  let tier : String :=
    if disqualified then "DISQUALIFIED"
    else if score_pct ≥ 90 then "A - Excellent"
    else if score_pct ≥ 80 then "B - Strong"
    else if score_pct ≥ 70 then "C - Qualified"
    else "D - Weak"
  let priority : String :=
    if disqualified then "❌"
    else if score_pct ≥ 90 then "🔥"
    else if score_pct ≥ 80 then "✅"
    else if score_pct ≥ 70 then "⚠️"
    else "🤔"
  { contact_id := cgetOpt contact "Contact_ID"
    name := cgetOpt contact "Person_Name"
    company := cgetOpt contact "Company_Name"
    company_type := company_type
    title := title
    email := cgetOpt contact "Email"
    phone := cgetOpt contact "Phone"
    state := state
    source := source
    created := cgetOpt contact "Created_Date"
    score := score
    score_pct := score_pct
    tier := tier
    priority := priority
    reasons := reasons
    gaps := gaps
    disqualified := disqualified }

/-- The tier cascade of lines 139-150 as a function of `score_pct`
(the non-disqualified branch). -/
def tierOf (score_pct : ℚ) : String :=
  if score_pct ≥ 90 then "A - Excellent"
  else if score_pct ≥ 80 then "B - Strong"
  else if score_pct ≥ 70 then "C - Qualified"
  else "D - Weak"

/-- Line 250 of the source: `get_priority_list` scores every contact a
second time while filtering
(`[score_lead(c) for c in contacts if not score_lead(c)["disqualified"]]`). -/
def priorityScored (contacts : List Contact) : List ScoredLead :=
  (contacts.filter (fun c => !(score_lead c).disqualified)).map score_lead

/-- Lines 229 and 251: `scored.sort(key=lambda x: x["score_pct"],
reverse=True)` — a stable sort, descending on `score_pct`. -/
def rankByScore (leads : List ScoredLead) : List ScoredLead :=
  leads.mergeSort (fun a b => decide (b.score_pct ≤ a.score_pct))

/-- Modelled from the spec: "`score`: integer, sum of earned weights"
(§3, ScoredLead) with the reference weights 35/35/10/10/5/5 (§6). -/
def spec_earned_sum (c : Contact) : ℕ :=
  (if company_type_hit c then 35 else 0) +
  (if has_auto c then 35 else 0) +
  (if company_size_hit c then 10 else 0) +
  (if title_hit c then 10 else 0) +
  (if source_hit c then 5 else 0) +
  (if state_hit c then 5 else 0)

/-- The priority-states list of the reference policy is empty, so the
geography criterion is satisfied by every contact (line 128). -/
theorem state_hit_always (c : Contact) : state_hit c = true := rfl

/-! Definitional characterizations of the `score_lead` output fields,
used to reason about the scorer without re-unfolding its body. -/

theorem score_eq (c : Contact) : (score_lead c).score = spec_earned_sum c := rfl

theorem disqualified_eq (c : Contact) :
    (score_lead c).disqualified = (!company_type_hit c || !has_auto c) := rfl

theorem score_pct_eq (c : Contact) :
    (score_lead c).score_pct =
      if (score_lead c).disqualified then 0
      else pythonRound1 (((score_lead c).score : ℚ) / 100 * 100) := rfl

theorem tier_eq (c : Contact) :
    (score_lead c).tier =
      if (score_lead c).disqualified then "DISQUALIFIED"
      else tierOf (score_lead c).score_pct := rfl

/-- Rounding identity `round(n / 100 * 100, 1) = n` for a whole-number score. -/
theorem pythonRound1_natCast (n : ℕ) : pythonRound1 ((n : ℚ) / 100 * 100) = n := by
  have h0 : ((n : ℚ) / 100 * 100) = (n : ℚ) := by
    rw [div_mul_cancel₀]
    norm_num
  rw [h0]
  unfold pythonRound1
  have h1 : ((n : ℚ) * 10) = ((10 * n : ℕ) : ℚ) := by push_cast; ring
  rw [h1, round_natCast]
  push_cast
  rw [mul_comm, mul_div_assoc]
  norm_num

example : (score_lead [("Company_Type", "Credit Union"),
    ("Has_Auto_Lending", "Yes")]).score = 75 := by decide

example : (score_lead []).disqualified = true := by decide

theorem gaps_eq (c : Contact) :
    (score_lead c).gaps =
      (if company_type_hit c then []
       else ["✗ NOT A CREDIT UNION: " ++ cget c "Company_Type" ""]) ++
      (if has_auto c then [] else ["✗ NO AUTO LENDING BUSINESS"]) := rfl

/-- A disqualified lead gets percentage 0 and the DISQUALIFIED tier. -/
theorem disq_fields (c : Contact) (hd : (score_lead c).disqualified = true) :
    (score_lead c).score_pct = 0 ∧ (score_lead c).tier = "DISQUALIFIED" := by
  constructor
  · rw [score_pct_eq]; simp [hd]
  · rw [tier_eq]; simp [hd]

/-- A qualified lead with raw score `n` gets percentage `n` and tier `tierOf n`. -/
theorem scored_fields (c : Contact) (n : ℕ) (hd : (score_lead c).disqualified = false)
    (hs : (score_lead c).score = n) :
    (score_lead c).score_pct = n ∧ (score_lead c).tier = tierOf n := by
  have hp : (score_lead c).score_pct = n := by
    rw [score_pct_eq]
    simp only [hd, Bool.false_eq_true, if_false, hs]
    exact pythonRound1_natCast n
  exact ⟨hp, by rw [tier_eq]; simp only [hd, Bool.false_eq_true, if_false, hp]⟩

/-- Any percentage of at least 70 escapes the D tier. -/
theorem tierOf_ne_D {q : ℚ} (h : 70 ≤ q) : tierOf q ≠ "D - Weak" := by
  unfold tierOf
  have hC : q ≥ 70 := h
  split_ifs
  all_goals decide

example : (score_lead [("Company_Type", "Credit Union"),
    ("Has_Auto_Lending", "Yes")]).score_pct = 75 := by
  have h := scored_fields [("Company_Type", "Credit Union"), ("Has_Auto_Lending", "Yes")]
    75 (by decide) (by decide)
  exact_mod_cast h.1

/-! Concrete contact rows used below. -/

/-- The spec §8 example contact: passes every required and preferred criterion. -/
def contact_all_hits : Contact :=
  [("Company_Type", "Credit Union"), ("Has_Auto_Lending", "Yes"),
   ("Country", "United States"), ("Company_Size", "1000+"),
   ("Job_Title", "CFO"), ("Source", "Referral"), ("State", "CA")]

/-- A US credit union with auto lending and no preferred-field matches. -/
def contact_required_only : Contact :=
  [("Company_Type", "Credit Union"), ("Has_Auto_Lending", "Yes"),
   ("Country", "United States")]

/-- A Canadian credit union with auto lending: fails only the country rule. -/
def contact_canada : Contact :=
  [("Company_Type", "Credit Union"), ("Has_Auto_Lending", "Yes"),
   ("Country", "Canada")]

/-- A credit union row with no Has_Auto_Lending column at all. -/
def contact_no_auto : Contact := [("Company_Type", "Credit Union")]


/-! ## Claim theorems -/

/-- Claim C1 (code evaluation at the failing input): the spec requires a
contact with `country != "United States"` to be disqualified, but
`score_lead` never reads the Country column: `contact_canada` fails only
the country rule yet comes back qualified with score 75, percentage 75.0
and tier C, not DISQUALIFIED.  The code also contradicts its own
`ICP_CONFIG["required"]["country"] = ["United States"]` declaration. -/
theorem c1_country_requirement_not_enforced :
    cget contact_canada "Country" "" = "Canada" ∧
    company_type_hit contact_canada = true ∧
    has_auto contact_canada = true ∧
    (score_lead contact_canada).disqualified = false ∧
    (score_lead contact_canada).score_pct = 75 ∧
    (score_lead contact_canada).tier = "C - Qualified" := by
  have hd : (score_lead contact_canada).disqualified = false := by decide
  have hs : (score_lead contact_canada).score = 75 := by decide
  obtain ⟨hp, ht⟩ := scored_fields contact_canada 75 hd hs
  refine ⟨by decide, by decide, by decide, hd, by exact_mod_cast hp, ?_⟩
  rw [ht]
  norm_num [tierOf]

/-- Claim C2 counterexample: a credit-union contact with no auto lending is
disqualified, yet its `score` field keeps the 40 earned points
(35 company type + 5 geography), refuting the asserted `score = 0`. -/
theorem c2_cx_disqualified_score_kept :
    (score_lead contact_no_auto).disqualified = true ∧
    (score_lead contact_no_auto).score = 40 ∧
    (score_lead contact_no_auto).score ≠ 0 := by decide

/-- Claim C2 (amended): when `score_lead` disqualifies a contact it zeroes
`score_pct`, but the `score` field is not reset: it still holds the sum of
the earned weights of the satisfied criteria. -/
theorem c2_disqualified_pct_zero_score_kept (c : Contact)
    (hd : (score_lead c).disqualified = true) :
    (score_lead c).score_pct = 0 ∧ (score_lead c).score = spec_earned_sum c :=
  ⟨(disq_fields c hd).1, score_eq c⟩

theorem c2_disqualified_pct_zero_score_kept_witness :
    (score_lead contact_no_auto).score_pct = 0 ∧
    (score_lead contact_no_auto).score = spec_earned_sum contact_no_auto :=
  c2_disqualified_pct_zero_score_kept contact_no_auto (by decide)

/-- Claim C3 counterexample: `contact_required_only` satisfies every
required criterion and none of the nonempty preferred lists, yet scores
75 points (35 + 35 + the 5 geography points the empty state list always
grants), percentage 75.0 and tier C — not the claimed 70 / 70.0. -/
theorem c3_cx_required_only_is_75 :
    company_type_hit contact_required_only = true ∧
    has_auto contact_required_only = true ∧
    cget contact_required_only "Country" "" = "United States" ∧
    company_size_hit contact_required_only = false ∧
    title_hit contact_required_only = false ∧
    source_hit contact_required_only = false ∧
    (score_lead contact_required_only).score = 75 ∧
    (score_lead contact_required_only).score ≠ 70 ∧
    (score_lead contact_required_only).score_pct = 75 ∧
    (score_lead contact_required_only).score_pct ≠ 70 := by
  have hd : (score_lead contact_required_only).disqualified = false := by decide
  have hs : (score_lead contact_required_only).score = 75 := by decide
  have hp := (scored_fields contact_required_only 75 hd hs).1
  refine ⟨by decide, by decide, by decide, by decide, by decide, by decide,
    hs, by decide, by exact_mod_cast hp, ?_⟩
  rw [hp]
  norm_num

/-- Claim C3 (amended): a contact satisfying all required criteria and
none of the nonempty preferred lists (company size, title, source) scores
75 = 35 + 35 + 5, with `score_pct = 75.0` and tier C, because the empty
preferred-state list always contributes its 5 points. -/
theorem c3_required_only_amended (c : Contact)
    (h1 : company_type_hit c = true) (h2 : has_auto c = true)
    (h3 : company_size_hit c = false) (h4 : title_hit c = false)
    (h5 : source_hit c = false) :
    (score_lead c).score = 75 ∧ (score_lead c).score_pct = 75 ∧
    (score_lead c).tier = "C - Qualified" := by
  have hs : (score_lead c).score = 75 := by
    rw [score_eq]
    simp [spec_earned_sum, h1, h2, h3, h4, h5, state_hit_always]
  have hd : (score_lead c).disqualified = false := by
    rw [disqualified_eq, h1, h2]
    rfl
  obtain ⟨hp, ht⟩ := scored_fields c 75 hd hs
  refine ⟨hs, by exact_mod_cast hp, ?_⟩
  rw [ht]
  norm_num [tierOf]

theorem c3_required_only_amended_witness :
    (score_lead contact_required_only).score = 75 ∧
    (score_lead contact_required_only).score_pct = 75 ∧
    (score_lead contact_required_only).tier = "C - Qualified" :=
  c3_required_only_amended contact_required_only (by decide) (by decide)
    (by decide) (by decide) (by decide)

/-- Claim C4: a contact satisfying all required and all preferred criteria
gets score 100, percentage 100.0, tier A and is not disqualified. -/
theorem c4_all_criteria_score_100 (c : Contact)
    (h1 : company_type_hit c = true) (h2 : has_auto c = true)
    (h3 : company_size_hit c = true) (h4 : title_hit c = true)
    (h5 : source_hit c = true) :
    (score_lead c).score = 100 ∧ (score_lead c).score_pct = 100 ∧
    (score_lead c).tier = "A - Excellent" ∧
    (score_lead c).disqualified = false := by
  have hs : (score_lead c).score = 100 := by
    rw [score_eq]
    simp [spec_earned_sum, h1, h2, h3, h4, h5, state_hit_always]
  have hd : (score_lead c).disqualified = false := by
    rw [disqualified_eq, h1, h2]
    rfl
  obtain ⟨hp, ht⟩ := scored_fields c 100 hd hs
  refine ⟨hs, by exact_mod_cast hp, ?_, hd⟩
  rw [ht]
  norm_num [tierOf]

theorem c4_all_criteria_score_100_witness :
    (score_lead contact_all_hits).score = 100 ∧
    (score_lead contact_all_hits).score_pct = 100 ∧
    (score_lead contact_all_hits).tier = "A - Excellent" ∧
    (score_lead contact_all_hits).disqualified = false :=
  c4_all_criteria_score_100 contact_all_hits (by decide) (by decide)
    (by decide) (by decide) (by decide)

/-- Claim C5: for every non-disqualified contact the tier is obtained from
`score_pct` by the inclusive lower-bound cascade `tierOf`, evaluated from
the highest threshold down; in particular a percentage of exactly 90.0
gives tier A, 89.9 gives tier B, 80.0 gives B, 79.9 gives C, 70.0 gives C
and 69.9 gives D. -/
theorem c5_tier_thresholds :
    (∀ c : Contact, (score_lead c).disqualified = false →
        (score_lead c).tier = tierOf (score_lead c).score_pct) ∧
    tierOf (90 : ℚ) = "A - Excellent" ∧ tierOf (899 / 10 : ℚ) = "B - Strong" ∧
    tierOf (80 : ℚ) = "B - Strong" ∧ tierOf (799 / 10 : ℚ) = "C - Qualified" ∧
    tierOf (70 : ℚ) = "C - Qualified" ∧ tierOf (699 / 10 : ℚ) = "D - Weak" := by
  refine ⟨fun c hd => ?_, by norm_num [tierOf], by norm_num [tierOf],
    by norm_num [tierOf], by norm_num [tierOf], by norm_num [tierOf],
    by norm_num [tierOf]⟩
  rw [tier_eq]
  simp only [hd, Bool.false_eq_true, if_false]

theorem c5_tier_thresholds_witness :
    (score_lead contact_all_hits).tier =
      tierOf (score_lead contact_all_hits).score_pct :=
  c5_tier_thresholds.1 contact_all_hits (by decide)

/-- Claim C6: the scorer is a pure function, hence deterministic, and the
second evaluation performed by `get_priority_list` while filtering (line
250) agrees with the first: filtering contacts on the disqualification of
their score and then scoring equals scoring once and filtering the
results. -/
theorem c6_deterministic_rescoring_agrees (c : Contact) (cs : List Contact) :
    score_lead c = score_lead c ∧
    priorityScored cs = (cs.map score_lead).filter (fun s => !s.disqualified) := by
  refine ⟨rfl, ?_⟩
  rw [List.filter_map]
  rfl

/-- Claim C7: the scorer is total over arbitrary rows — every field read
goes through `get` with a default — and a row missing the
Has_Auto_Lending column is treated as "No": the criterion fails, the
contact is disqualified with the auto-lending gap message, not an error. -/
theorem c7_missing_auto_lending_disqualifies (c : Contact)
    (h : List.lookup "Has_Auto_Lending" c = none) :
    has_auto c = false ∧ (score_lead c).disqualified = true ∧
    (score_lead c).score_pct = 0 ∧
    "✗ NO AUTO LENDING BUSINESS" ∈ (score_lead c).gaps := by
  have ha : has_auto c = false := by
    unfold has_auto cget
    rw [h]
    rfl
  have hd : (score_lead c).disqualified = true := by
    rw [disqualified_eq, ha]
    simp
  refine ⟨ha, hd, (disq_fields c hd).1, ?_⟩
  rw [gaps_eq, ha]
  simp

theorem c7_missing_auto_lending_disqualifies_witness :
    has_auto contact_no_auto = false ∧
    (score_lead contact_no_auto).disqualified = true ∧
    (score_lead contact_no_auto).score_pct = 0 ∧
    "✗ NO AUTO LENDING BUSINESS" ∈ (score_lead contact_no_auto).gaps :=
  c7_missing_auto_lending_disqualifies contact_no_auto (by decide)

/-- Claim C8: ranking by `score_pct` descending (a stable sort, as Python
`list.sort` is) is idempotent, and a pair of equally scored leads keeps
its original relative order. -/
theorem c8_rankByScore_idempotent_stable (l : List ScoredLead) :
    rankByScore (rankByScore l) = rankByScore l ∧
    ∀ a b : ScoredLead, a.score_pct = b.score_pct →
      List.Sublist [a, b] l → List.Sublist [a, b] (rankByScore l) := by
  have htrans : ∀ x y z : ScoredLead,
      decide (y.score_pct ≤ x.score_pct) = true →
      decide (z.score_pct ≤ y.score_pct) = true →
      decide (z.score_pct ≤ x.score_pct) = true := by
    intro x y z h1 h2
    simp only [decide_eq_true_eq] at h1 h2 ⊢
    exact le_trans h2 h1
  have htotal : ∀ x y : ScoredLead,
      (decide (y.score_pct ≤ x.score_pct) ||
        decide (x.score_pct ≤ y.score_pct)) = true := by
    intro x y
    simp only [Bool.or_eq_true, decide_eq_true_eq]
    exact le_total _ _
  constructor
  · unfold rankByScore
    exact List.mergeSort_of_sorted (List.sorted_mergeSort htrans htotal _)
  · intro a b hab hsub
    unfold rankByScore
    exact List.pair_sublist_mergeSort htrans htotal (by simp [hab]) hsub

theorem c8_rankByScore_idempotent_stable_witness :
    rankByScore (rankByScore [score_lead [], score_lead [("Person_Name", "B")]]) =
      rankByScore [score_lead [], score_lead [("Person_Name", "B")]] ∧
    List.Sublist [score_lead [], score_lead [("Person_Name", "B")]]
      (rankByScore [score_lead [], score_lead [("Person_Name", "B")]]) := by
  have hpct : (score_lead ([] : Contact)).score_pct =
      (score_lead [("Person_Name", "B")]).score_pct := by
    rw [(disq_fields [] (by decide)).1, (disq_fields [("Person_Name", "B")] (by decide)).1]
  exact ⟨(c8_rankByScore_idempotent_stable _).1,
    (c8_rankByScore_idempotent_stable _).2 _ _ hpct (List.Sublist.refl _)⟩

/-- Claim C9: `score_lead` never reads the Country column: two rows that
agree on every key other than "Country" get identical results. -/
theorem c9_country_noninterference (c₁ c₂ : Contact)
    (h : ∀ k, k ≠ "Country" → List.lookup k c₁ = List.lookup k c₂) :
    score_lead c₁ = score_lead c₂ := by
  have hg : ∀ k d, k ≠ "Country" → cget c₁ k d = cget c₂ k d := by
    intro k d hk
    unfold cget
    rw [h k hk]
  have ho : ∀ k, k ≠ "Country" → cgetOpt c₁ k = cgetOpt c₂ k := by
    intro k hk
    unfold cgetOpt
    exact h k hk
  have e1 : company_type_hit c₁ = company_type_hit c₂ := by
    unfold company_type_hit
    rw [hg _ _ (by decide)]
  have e2 : has_auto c₁ = has_auto c₂ := by
    unfold has_auto
    rw [hg _ _ (by decide)]
  have e3 : company_size_hit c₁ = company_size_hit c₂ := by
    unfold company_size_hit
    rw [hg _ _ (by decide)]
  have e4 : title_hit c₁ = title_hit c₂ := by
    unfold title_hit
    rw [hg _ _ (by decide)]
  have e5 : source_hit c₁ = source_hit c₂ := by
    unfold source_hit
    rw [hg _ _ (by decide)]
  have e6 : state_hit c₁ = state_hit c₂ := by
    unfold state_hit
    rw [hg _ _ (by decide)]
  simp only [score_lead, e1, e2, e3, e4, e5, e6,
    hg "Company_Type" "" (by decide), hg "Company_Size" "" (by decide),
    hg "Job_Title" "" (by decide), hg "Source" "" (by decide),
    hg "State" "" (by decide),
    ho "Contact_ID" (by decide), ho "Person_Name" (by decide),
    ho "Company_Name" (by decide), ho "Email" (by decide),
    ho "Phone" (by decide), ho "Created_Date" (by decide)]

theorem c9_country_noninterference_witness :
    score_lead [("Company_Type", "Credit Union"), ("Country", "United States")] =
      score_lead [("Company_Type", "Credit Union"), ("Country", "Canada")] := by
  apply c9_country_noninterference
  intro k hk
  have hbeq : (k == "Country") = false := by
    simp only [beq_eq_false_iff_ne, ne_eq]
    exact hk
  simp only [List.lookup, hbeq]

/-- Claim C10: under the reference policy the empty preferred-state list
always contributes its 5 points, so every non-disqualified contact scores
at least 75 points (35 + 35 + 5) and 75.0 percent, and the "D - Weak"
tier is unreachable. -/
theorem c10_qualified_at_least_75_no_tier_D (c : Contact)
    (hd : (score_lead c).disqualified = false) :
    75 ≤ (score_lead c).score ∧ (75 : ℚ) ≤ (score_lead c).score_pct ∧
    (score_lead c).tier ≠ "D - Weak" := by
  have h1 : company_type_hit c = true := by
    rw [disqualified_eq] at hd
    cases hct : company_type_hit c
    · rw [hct] at hd
      simp at hd
    · rfl
  have h2 : has_auto c = true := by
    rw [disqualified_eq] at hd
    cases hau : has_auto c
    · rw [hau] at hd
      simp at hd
    · rfl
  have hsb : 75 ≤ (score_lead c).score := by
    rw [score_eq]
    simp [spec_earned_sum, h1, h2, state_hit_always]
    split_ifs <;> omega
  obtain ⟨hp, ht⟩ := scored_fields c (score_lead c).score hd rfl
  have hp75 : (75 : ℚ) ≤ (score_lead c).score_pct := by
    rw [hp]
    exact_mod_cast hsb
  refine ⟨hsb, hp75, ?_⟩
  rw [ht]
  apply tierOf_ne_D
  have h75q : (75 : ℚ) ≤ ((score_lead c).score : ℚ) := by exact_mod_cast hsb
  linarith

theorem c10_qualified_at_least_75_no_tier_D_witness :
    75 ≤ (score_lead contact_all_hits).score ∧
    (75 : ℚ) ≤ (score_lead contact_all_hits).score_pct ∧
    (score_lead contact_all_hits).tier ≠ "D - Weak" :=
  c10_qualified_at_least_75_no_tier_D contact_all_hits (by decide)

end LeadQual
